import Mathlib

/-!
Verification of the Beam Analysis Tool (simply supported beam analysis in
`Beam_Analysis_Tool.py`) against its natural-language specification.

The Python program is embedded shallowly over the rationals: every numeric
quantity of the program (lengths, loads, moduli, deflections) is a `ℚ`, so
all theorems speak about the program's formulas in exact arithmetic.
Piecewise numpy-mask computations become `if`-expressions, `np.linspace`
becomes an explicit list of sample points, and Python functions that can
return `None` (the unit converters, on an unhandled unit tag) return
`Option ℚ`.
-/

namespace BeamAnalysis

/-! ## Unit conversion functions (`convert_length`, `convert_E`, `convert_I`,
`convert_load`, `convert_udl`, lines 58-88).  Each takes the raw value and the
integer unit tag chosen at the prompt; a tag outside the handled range falls
off the end of the Python `if`-chain and yields `None`. -/

def convert_length (value : ℚ) (unit : ℕ) : Option ℚ :=
  if unit = 1 then some value            -- m
  else if unit = 2 then some (value / 1000)  -- mm
  else if unit = 3 then some (value / 100)   -- cm
  else none

def convert_E (value : ℚ) (unit : ℕ) : Option ℚ :=
  if unit = 1 then some (value * 10 ^ 9)     -- GPa
  else if unit = 2 then some (value * 10 ^ 6)  -- MPa
  else none

def convert_I (value : ℚ) (unit : ℕ) : Option ℚ :=
  if unit = 1 then some (value * (1 / 10 ^ 12))  -- mm^4
  else if unit = 2 then some value               -- m^4
  else none

def convert_load (value : ℚ) (unit : ℕ) : Option ℚ :=
  if unit = 1 then some value            -- N
  else if unit = 2 then some (value * 1000)  -- kN
  else none

def convert_udl (value : ℚ) (unit : ℕ) : Option ℚ :=
  if unit = 1 then some value            -- N/m
  else if unit = 2 then some (value * 1000)  -- kN/m
  else none

/-! ## Physics functions (lines 92-101). -/

/-- `point_load_ssb` (line 92): scalar deflection under the load,
δ = P·a·b·(L²−a²−b²)/(6·E·I·L) with b = L−a. -/
def point_load_ssb (P L E I a : ℚ) : ℚ :=
  let b := L - a
  (P * a * b * (L ^ 2 - a ^ 2 - b ^ 2)) / (6 * E * I * L)

/-- `udl_ssb` (line 99): δ = 5·w·L⁴/(384·E·I). -/
def udl_ssb (w L E I : ℚ) : ℚ :=
  (5 * w * L ^ 4) / (384 * E * I)

/-! ## Deflection curves used by the plotting functions. -/

/-- The piecewise deflection curve of `plot_point_load_ssb` (lines 110-116):
mask `x < a` uses (P·b·x/(6·L·E·I))·(L²−b²−x²), mask `x ≥ a` uses
(P·a·(L−x)/(6·L·E·I))·(L²−a²−(L−x)²), with b = L−a. -/
def point_load_deflection_curve (P L E I a x : ℚ) : ℚ :=
  let b := L - a
  if x < a then (P * b * x / (6 * L * E * I)) * (L ^ 2 - b ^ 2 - x ^ 2)
  else (P * a * (L - x) / (6 * L * E * I)) * (L ^ 2 - a ^ 2 - (L - x) ^ 2)

/-- The UDL deflection curve of `plot_udl_ssb` (line 156):
y(x) = w·x·(L³−2·L·x²+x³)/(24·E·I). -/
def udl_deflection_curve (w L E I x : ℚ) : ℚ :=
  (w * x * (L ^ 3 - 2 * L * x ^ 2 + x ^ 3)) / (24 * E * I)

/-! ## Reaction forces (lines 186-204). -/

/-- `reactions_point_load` (line 186): R1 = P·b/L, R2 = P·a/L with b = L−a. -/
def reactions_point_load (P L a : ℚ) : ℚ × ℚ :=
  let b := L - a
  (P * b / L, P * a / L)

/-- `reactions_udl` (line 197): R = w·L/2, returned for both supports. -/
def reactions_udl (w L : ℚ) : ℚ × ℚ :=
  (w * L / 2, w * L / 2)

/-! ## Diagram sampling (`np.linspace(0, L, 400)` and the SFD/BMD functions,
lines 208-272). -/

/-- `np.linspace(start, stop, n)`: n evenly spaced samples,
sample i = start + (stop − start)·i/(n−1). -/
def linspace (start stop : ℚ) (n : ℕ) : List ℚ :=
  (List.range n).map (fun i : ℕ =>
    start + (stop - start) * (i : ℚ) / ((n : ℚ) - 1))

/-- Shear value of `plot_sfd_point` (line 211): `np.where(x < a, R1, R1 - P)`. -/
def shear_point (R1 P a x : ℚ) : ℚ :=
  if x < a then R1 else R1 - P

/-- Moment value of `plot_bmd_point` (line 227):
`np.where(x < a, R1*x, R1*x - P*(x-a))`. -/
def moment_point (R1 P a x : ℚ) : ℚ :=
  if x < a then R1 * x else R1 * x - P * (x - a)

/-- Moment value of `plot_bmd_udl` (lines 260-261): R·x − w·x²/2 with R = w·L/2. -/
def moment_udl (w L x : ℚ) : ℚ :=
  (w * L / 2) * x - (w * x ^ 2) / 2

/-- The (x, V) sample sequence produced by `plot_sfd_point` (lines 208-211). -/
def plot_sfd_point (R1 P a L : ℚ) : List (ℚ × ℚ) :=
  (linspace 0 L 400).map (fun x => (x, shear_point R1 P a x))

/-- The (x, M) sample sequence produced by `plot_bmd_point` (lines 224-227). -/
def plot_bmd_point (R1 P a L : ℚ) : List (ℚ × ℚ) :=
  (linspace 0 L 400).map (fun x => (x, moment_point R1 P a x))

/-- The (x, y) sample sequence produced by `plot_point_load_ssb` (lines 105-118). -/
def plot_point_load_curve (P L E I a : ℚ) : List (ℚ × ℚ) :=
  (linspace 0 L 400).map (fun x => (x, point_load_deflection_curve P L E I a x))

/-! ## Serviceability check (lines 276, 306, 326-329, 348-351). -/

/-- `NEGLIGIBLE_DEFLECTION = 0.001` (line 276), in mm. -/
def NEGLIGIBLE_DEFLECTION : ℚ := 1 / 1000

/-- `LIMIT = L * 1000 / 250` (line 306): allowable deflection in mm for a
span L in metres. -/
def LIMIT (L : ℚ) : ℚ := L * 1000 / 250

/-- The three serviceability outcomes of `main`: the "negligible" message,
the "exceeds serviceability limit" warning, or no message. -/
inductive ServiceabilityMessage where
  | negligible
  | exceedsLimit
  | withinLimits
deriving DecidableEq, Repr

/-- The serviceability classification of `main` (lines 326-329 and 348-351):
`if actual_deflection < NEGLIGIBLE_DEFLECTION: ... elif actual_deflection >
LIMIT: ...` with the signed deflection in mm. -/
def classify_deflection (actual_deflection limit : ℚ) : ServiceabilityMessage :=
  if actual_deflection < NEGLIGIBLE_DEFLECTION then .negligible
  else if actual_deflection > limit then .exceedsLimit
  else .withinLimits

/-! ## The point-load branch of `main` (lines 308-336), from the values after
unit conversion onward.  Line 317 aborts (`return`) unless 0 < a < L; only
then are the deflection, reactions and the three diagrams computed. -/

structure PointLoadResults where
  deflection : ℚ
  actual_deflection : ℚ
  message : ServiceabilityMessage
  reactions : ℚ × ℚ
  sfd : List (ℚ × ℚ)
  bmd : List (ℚ × ℚ)
  curve : List (ℚ × ℚ)
deriving DecidableEq, Repr

/-- `main`, point-load branch (lines 317-336), applied to the SI values after
unit conversion: aborts with no output unless 0 < a < L. -/
def main_point_load (P L E I a : ℚ) : Option PointLoadResults :=
  if 0 < a ∧ a < L then
    let deflection := point_load_ssb P L E I a
    let actual := deflection * 1000
    let R := reactions_point_load P L a
    some { deflection := deflection
           actual_deflection := actual
           message := classify_deflection actual (LIMIT L)
           reactions := R
           sfd := plot_sfd_point R.1 P a L
           bmd := plot_bmd_point R.1 P a L
           curve := plot_point_load_curve P L E I a }
  else none

end BeamAnalysis

namespace BeamAnalysis

/-! ## Theorems -/

/-- C1: for every P, L > 0 and 0 < a < L the reactions of
`reactions_point_load` sum to P, and for every w and L > 0 the reactions of
`reactions_udl` sum to w·L, exactly. -/
theorem reactions_sum_to_load (P L a w : ℚ) (hL : 0 < L) (ha : 0 < a)
    (haL : a < L) :
    (reactions_point_load P L a).1 + (reactions_point_load P L a).2 = P ∧
    (reactions_udl w L).1 + (reactions_udl w L).2 = w * L := by
  constructor
  · simp only [reactions_point_load]
    field_simp
    ring
  · simp only [reactions_udl]
    ring

/-- Witness for C1 at P = 10000, L = 4, a = 2, w = 5000. -/
theorem reactions_sum_to_load_witness :
    (reactions_point_load 10000 4 2).1 + (reactions_point_load 10000 4 2).2
      = 10000 ∧
    (reactions_udl 5000 4).1 + (reactions_udl 5000 4).2 = 5000 * 4 :=
  reactions_sum_to_load 10000 4 2 5000 (by norm_num) (by norm_num) (by norm_num)

/-- C2: the scalar `point_load_ssb` equals the piecewise deflection curve of
`plot_point_load_ssb` at x = a, and the scalar `udl_ssb` equals the UDL
deflection curve at x = L/2, for all L, E, I > 0 and 0 < a < L, exactly. -/
theorem scalar_deflection_matches_curve (P w L E I a : ℚ) (hL : 0 < L)
    (hE : 0 < E) (hI : 0 < I) (ha : 0 < a) (haL : a < L) :
    point_load_ssb P L E I a = point_load_deflection_curve P L E I a a ∧
    udl_ssb w L E I = udl_deflection_curve w L E I (L / 2) := by
  constructor
  · simp only [point_load_ssb, point_load_deflection_curve]
    rw [if_neg (lt_irrefl a)]
    ring
  · simp only [udl_ssb, udl_deflection_curve]
    ring

/-- Witness for C2 at P = 10000, w = 5000, L = 4, E = 2·10¹¹, I = 8·10⁻⁶,
a = 2. -/
theorem scalar_deflection_matches_curve_witness :
    point_load_ssb 10000 4 (2 * 10 ^ 11) (8 / 10 ^ 6) 2 =
      point_load_deflection_curve 10000 4 (2 * 10 ^ 11) (8 / 10 ^ 6) 2 2 ∧
    udl_ssb 5000 4 (2 * 10 ^ 11) (8 / 10 ^ 6) =
      udl_deflection_curve 5000 4 (2 * 10 ^ 11) (8 / 10 ^ 6) (4 / 2) :=
  scalar_deflection_matches_curve 10000 5000 4 (2 * 10 ^ 11) (8 / 10 ^ 6) 2
    (by norm_num) (by norm_num) (by norm_num) (by norm_num) (by norm_num)

/-- C3 counterexample: the code compares the signed deflection, not its
absolute value, against the threshold (line 326), so an upward deflection of
−25 mm — whose absolute value is far above 0.001 mm — is still classified
"negligible", contradicting the claim. -/
theorem negligible_check_counterexample :
    classify_deflection (-25) (LIMIT 5) = ServiceabilityMessage.negligible ∧
    ¬ |(-25 : ℚ)| < NEGLIGIBLE_DEFLECTION := by
  constructor
  · norm_num [classify_deflection, NEGLIGIBLE_DEFLECTION]
  · rw [abs_neg, abs_of_pos (show (0 : ℚ) < 25 by norm_num)]
    norm_num [NEGLIGIBLE_DEFLECTION]

/-- C3 amended: the serviceability check classifies a deflection as
"negligible" exactly when its signed value is below 0.001 mm; every negative
(upward) deflection is classified negligible regardless of magnitude. -/
theorem negligible_check_signed (d lim : ℚ) :
    classify_deflection d lim = ServiceabilityMessage.negligible ↔
      d < NEGLIGIBLE_DEFLECTION := by
  unfold classify_deflection
  split_ifs with h1 h2 <;> simp [h1]

/-- C4: the classification yields exactly one of three outcomes, the
negligibility check precedes the limit check, the allowable limit is the span
in mm divided by 250, and the two concrete scenarios of the spec (0.0005 mm at
L = 5 m is "negligible"; 25 mm at L = 5000 mm exceeds the 20 mm limit). -/
theorem serviceability_classification :
    (∀ d lim : ℚ, d < NEGLIGIBLE_DEFLECTION →
        classify_deflection d lim = ServiceabilityMessage.negligible) ∧
    (∀ d lim : ℚ, ¬ d < NEGLIGIBLE_DEFLECTION → lim < d →
        classify_deflection d lim = ServiceabilityMessage.exceedsLimit) ∧
    (∀ d lim : ℚ, ¬ d < NEGLIGIBLE_DEFLECTION → ¬ lim < d →
        classify_deflection d lim = ServiceabilityMessage.withinLimits) ∧
    (∀ L : ℚ, LIMIT L = L * 1000 / 250) ∧
    LIMIT 5 = 20 ∧
    classify_deflection (5 / 10000) (LIMIT 5) = ServiceabilityMessage.negligible ∧
    convert_length 5000 2 = some 5 ∧
    classify_deflection 25 (LIMIT 5) = ServiceabilityMessage.exceedsLimit := by
  refine ⟨?_, ?_, ?_, fun L => rfl, by norm_num [LIMIT],
    by norm_num [classify_deflection, LIMIT, NEGLIGIBLE_DEFLECTION],
    by norm_num [convert_length],
    by norm_num [classify_deflection, LIMIT, NEGLIGIBLE_DEFLECTION]⟩
  · intro d lim h
    simp [classify_deflection, h]
  · intro d lim h1 h2
    simp [classify_deflection, h1, h2]
  · intro d lim h1 h2
    simp [classify_deflection, h1, h2]

/-- Witness for C4: one concrete input through each of the three branches. -/
theorem serviceability_classification_witness :
    classify_deflection (1 / 2000) (LIMIT 5) = ServiceabilityMessage.negligible ∧
    classify_deflection 25 (LIMIT 5) = ServiceabilityMessage.exceedsLimit ∧
    classify_deflection 10 (LIMIT 5) = ServiceabilityMessage.withinLimits :=
  ⟨serviceability_classification.1 _ _
      (by norm_num [NEGLIGIBLE_DEFLECTION]),
   serviceability_classification.2.1 _ _
      (by norm_num [NEGLIGIBLE_DEFLECTION]) (by norm_num [LIMIT]),
   serviceability_classification.2.2.1 _ _
      (by norm_num [NEGLIGIBLE_DEFLECTION]) (by norm_num [LIMIT])⟩

/-- `getD` of a mapped `List.range`. -/
theorem getD_map_range {α : Type} (f : ℕ → α) (n i : ℕ) (d : α) (h : i < n) :
    ((List.range n).map f).getD i d = f i := by
  rw [List.getD_eq_getElem?_getD, List.getElem?_map, List.getElem?_range h]
  rfl

/-- C5: `plot_sfd_point` produces 400 samples; sample i sits at position
i·L/399 (hence evenly spaced with step L/399, first sample 0, last sample L)
and carries shear R1 when the position is < a and R1 − P otherwise. The
sampling is a pure function of (R1, P, a, L). -/
theorem plot_sfd_point_spec (R1 P a L : ℚ) :
    (plot_sfd_point R1 P a L).length = 400 ∧
    plot_sfd_point R1 P a L =
      (List.range 400).map (fun i : ℕ =>
        ((i : ℚ) * L / 399,
          if (i : ℚ) * L / 399 < a then R1 else R1 - P)) ∧
    (plot_sfd_point R1 P a L).getD 0 (0, 0) =
      (0, if 0 < a then R1 else R1 - P) ∧
    (plot_sfd_point R1 P a L).getD 399 (0, 0) =
      (L, if L < a then R1 else R1 - P) ∧
    (∀ i : ℕ, i + 1 < 400 →
      ((plot_sfd_point R1 P a L).getD (i + 1) (0, 0)).1 -
        ((plot_sfd_point R1 P a L).getD i (0, 0)).1 = L / 399) := by
  have hchar : plot_sfd_point R1 P a L =
      (List.range 400).map (fun i : ℕ =>
        ((i : ℚ) * L / 399,
          if (i : ℚ) * L / 399 < a then R1 else R1 - P)) := by
    unfold plot_sfd_point linspace shear_point
    rw [List.map_map]
    refine List.map_congr_left (fun i _ => ?_)
    have hx : (0 : ℚ) + (L - 0) * (i : ℚ) / (((400 : ℕ) : ℚ) - 1) =
        (i : ℚ) * L / 399 := by
      push_cast
      ring
    simp only [Function.comp_apply, hx]
  refine ⟨?_, hchar, ?_, ?_, ?_⟩
  · rw [hchar, List.length_map, List.length_range]
  · rw [hchar, getD_map_range _ 400 0 _ (by norm_num)]
    have h0 : ((0 : ℕ) : ℚ) * L / 399 = 0 := by push_cast; ring
    rw [h0]
  · rw [hchar, getD_map_range _ 400 399 _ (by norm_num)]
    have h399 : ((399 : ℕ) : ℚ) * L / 399 = L := by push_cast; ring
    rw [h399]
  · intro i hi
    rw [hchar, getD_map_range _ 400 (i + 1) _ hi,
      getD_map_range _ 400 i _ (by omega)]
    push_cast
    ring

/-- Witness for C5: consecutive samples 199 and 200 of a concrete diagram are
L/399 apart. -/
theorem plot_sfd_point_spec_witness :
    ((plot_sfd_point 5000 10000 2 4).getD 200 (0, 0)).1 -
      ((plot_sfd_point 5000 10000 2 4).getD 199 (0, 0)).1 = 4 / 399 :=
  (plot_sfd_point_spec 5000 10000 2 4).2.2.2.2 199 (by norm_num)

/-- C6: the point-load bending moment is continuous at the load position:
`moment_point` at x = a (which takes the right branch R1·x − P·(x−a)) equals
the left branch value R1·a, for every R1, P and a. -/
theorem moment_point_continuous_at_load (R1 P a : ℚ) :
    moment_point R1 P a a = R1 * a := by
  simp [moment_point]

/-- C7: the UDL deflection curve is symmetric about midspan:
y(x) = y(L−x) for all w, L, E, I and x, exactly. -/
theorem udl_deflection_symmetric (w L E I x : ℚ) :
    udl_deflection_curve w L E I x = udl_deflection_curve w L E I (L - x) := by
  simp only [udl_deflection_curve]
  ring

/-- C8: each unit converter applies exactly the spec's factor for each valid
unit tag, and accepts exactly the valid tags. -/
theorem unit_converters_apply_spec_factors (v : ℚ) :
    convert_length v 1 = some v ∧
    convert_length v 2 = some (v / 1000) ∧
    convert_length v 3 = some (v / 100) ∧
    convert_E v 1 = some (v * 10 ^ 9) ∧
    convert_E v 2 = some (v * 10 ^ 6) ∧
    convert_I v 1 = some (v * (1 / 10 ^ 12)) ∧
    convert_I v 2 = some v ∧
    convert_load v 1 = some v ∧
    convert_load v 2 = some (v * 1000) ∧
    convert_udl v 1 = some v ∧
    convert_udl v 2 = some (v * 1000) ∧
    (∀ u : ℕ, (convert_length v u).isSome ↔ u = 1 ∨ u = 2 ∨ u = 3) ∧
    (∀ u : ℕ, (convert_E v u).isSome ↔ u = 1 ∨ u = 2) ∧
    (∀ u : ℕ, (convert_I v u).isSome ↔ u = 1 ∨ u = 2) ∧
    (∀ u : ℕ, (convert_load v u).isSome ↔ u = 1 ∨ u = 2) ∧
    (∀ u : ℕ, (convert_udl v u).isSome ↔ u = 1 ∨ u = 2) := by
  refine ⟨rfl, rfl, rfl, rfl, rfl, rfl, rfl, rfl, rfl, rfl, rfl,
    ?_, ?_, ?_, ?_, ?_⟩ <;>
    intro u <;>
    simp only [convert_length, convert_E, convert_I, convert_load,
      convert_udl] <;>
    split_ifs <;> simp_all

/-- C9: when the converted load position violates 0 < a < L, the point-load
branch of `main` aborts: no reactions, deflection or diagrams are produced. -/
theorem main_point_load_aborts_on_invalid_position (P L E I a : ℚ)
    (h : ¬ (0 < a ∧ a < L)) :
    main_point_load P L E I a = none := by
  simp [main_point_load, h]

/-- Witness for C9: a load position of 5 m on a 4 m span aborts the run. -/
theorem main_point_load_aborts_witness :
    main_point_load 10000 4 (2 * 10 ^ 11) (8 / 10 ^ 6) 5 = none :=
  main_point_load_aborts_on_invalid_position 10000 4 (2 * 10 ^ 11)
    (8 / 10 ^ 6) 5 (by norm_num)

/-- C10: the bending moment is exactly zero at both supports for both load
cases: the point-load moment with R1 from `reactions_point_load` vanishes at
x = 0 and x = L, and the UDL moment vanishes at x = 0 and x = L. -/
theorem moment_zero_at_supports (P L a w : ℚ) (hL : 0 < L) (ha : 0 < a)
    (haL : a < L) :
    moment_point (reactions_point_load P L a).1 P a 0 = 0 ∧
    moment_point (reactions_point_load P L a).1 P a L = 0 ∧
    moment_udl w L 0 = 0 ∧
    moment_udl w L L = 0 := by
  refine ⟨?_, ?_, ?_, ?_⟩
  · simp only [moment_point]
    rw [if_pos ha]
    ring
  · have hL' : L ≠ 0 := ne_of_gt hL
    simp only [moment_point, reactions_point_load]
    rw [if_neg (not_lt.mpr (le_of_lt haL))]
    field_simp
  · simp only [moment_udl]
    ring
  · simp only [moment_udl]
    ring

/-- Witness for C10 at P = 10000, L = 4, a = 2, w = 5000. -/
theorem moment_zero_at_supports_witness :
    moment_point (reactions_point_load 10000 4 2).1 10000 2 0 = 0 ∧
    moment_point (reactions_point_load 10000 4 2).1 10000 2 4 = 0 ∧
    moment_udl 5000 4 0 = 0 ∧
    moment_udl 5000 4 4 = 0 :=
  moment_zero_at_supports 10000 4 2 5000 (by norm_num) (by norm_num)
    (by norm_num)

end BeamAnalysis
